import Mathlib

/-!
Verification of the school-management CRUD service.

This file gives a shallow embedding of the repository's request-handling
code and settles the specification's claims against it.

Embedded source files:
* `src/pages/api/schools/add.js` — creation handler (`addHandler` below);
* `src/pages/api/schools/list.js` — listing handler (`listHandler` below);
* `src/unnamed/part_004` (`lib/utilities.js`) — `createSchoolsTable`,
  the idempotent schema bootstrap whose internal try/catch swallows
  every error (it logs and returns normally);
* `src/lib/database.js` — `getPool`, the lazily created process-wide
  connection pool;
* `src/pages/addSchool.jsx` — the client-side yup schema, from which only
  the 10-digit contact pattern is embedded (`contactMatchesTenDigits`),
  because server/client validation asymmetry is at issue in one claim.

External collaborators (MySQL, Cloudinary, formidable) are modelled by an
environment record: `uploadResult` gives the outcome of
`cloudinary.uploader.upload` per filepath (`none` = the call throws),
`bootstrapOk` whether the bootstrap's own connection/DDL succeed, and
`insertOk` / `queryOk` whether `pool.execute` succeeds once reached.
The multipart fields parsed by formidable are lists of strings per key
(formidable collects repeated occurrences into an array; the handler
reads `fields.x?.[0]`, the first occurrence).
-/

/-- A persisted row of the `schools` table
(schema from `lib/utilities.js`: id, name, address, city, state,
contact, image nullable, email_id, created_at). The handler binds the
six text fields as strings, so they are strings here; `image` is the
nullable Cloudinary URL; `created_at` is the store-assigned timestamp. -/
structure SchoolRow where
  id : Nat
  name : String
  address : String
  city : String
  state : String
  contact : String
  image : Option String
  email_id : String
  created_at : Nat
deriving DecidableEq, Repr

/-- The relational store: whether the `schools` table exists, its rows in
insertion order, and the next AUTO_INCREMENT id. -/
structure Store where
  tableExists : Bool
  rows : List SchoolRow
  nextId : Nat
deriving DecidableEq, Repr

/-- `createSchoolsTable` from `lib/utilities.js` (src/unnamed/part_004):
`CREATE TABLE IF NOT EXISTS` inside a try/catch that only logs on
failure. It never throws and never touches rows; on success the table
exists afterwards, on an internal failure the store is left as it was. -/
def createSchoolsTable (ok : Bool) (s : Store) : Store :=
  if ok then { s with tableExists := true } else s

/-- Text fields of a parsed multipart submission, as formidable returns
them: each key maps to the list of values that occurred under that key
(possibly empty when the key was absent). -/
structure Fields where
  name : List String
  address : List String
  city : List String
  state : List String
  contact : List String
  email_id : List String
deriving DecidableEq, Repr

/-- An uploaded file as formidable hands it to the handler: the handler
only uses its temporary `filepath`. -/
structure FormFile where
  filepath : String
deriving DecidableEq, Repr

/-- File fields of a parsed multipart submission: the `image` key maps to
the list of files uploaded under it (the handler reads the first). -/
structure Files where
  image : List FormFile
deriving DecidableEq, Repr

/-- An inbound request to the creation endpoint: HTTP method plus the
parsed multipart payload. -/
structure AddRequest where
  method : String
  fields : Fields
  files : Files
deriving DecidableEq, Repr

/-- JavaScript truthiness of `fields.x?.[0]`: `undefined` (absent key)
and the empty string are falsy, every other string is truthy. -/
def truthy : Option String → Bool
  | none => false
  | some s => !s.isEmpty

/-- The creation handler's only validation, line for line
`if (!name || !address || !city || !state || !contact || !email_id)` in
`add.js` (negated): every required field's first value is truthy. -/
def allFieldsPresent (f : Fields) : Bool :=
  truthy f.name.head? && truthy f.address.head? && truthy f.city.head? &&
  truthy f.state.head? && truthy f.contact.head? && truthy f.email_id.head?

/-- The client-side contact rule from `addSchool.jsx`'s yup schema:
`matches(/^[0-9]{10}$/)`, i.e. exactly 10 ASCII digits. It appears only
in the browser form, not in the API route. -/
def contactMatchesTenDigits (s : String) : Bool :=
  s.length = 10 && s.all Char.isDigit

/-- Observable side effects of one creation request, in order: a
Cloudinary upload call (with the uploaded file's path) or a database
INSERT execution. -/
inductive Effect where
  | uploadCall (filepath : String)
  | insertRow
deriving DecidableEq, Repr

/-- Environment of one creation request: outcome of the schema
bootstrap's internals, of `cloudinary.uploader.upload` per filepath
(`none` = the promise rejects), of the INSERT execution, and the
timestamp MySQL assigns to `created_at`. -/
structure AddEnv where
  bootstrapOk : Bool
  uploadResult : String → Option String
  insertOk : Bool
  now : Nat

/-- Response of the creation endpoint: HTTP status, the `schoolId` field
of the JSON body when present, and the `message` field. -/
structure AddResponse where
  status : Nat
  schoolId : Option Nat
  message : String
deriving DecidableEq, Repr

/-- The INSERT in `add.js`: `pool.execute('INSERT INTO schools ...',
[name, address, city, state, contact, imageUrl, email_id])`. It throws
(caught as a 500) when the table is missing or the database fails;
otherwise the store appends the row, assigns the next id and the
current timestamp, and the handler answers 201 with `insertId`. -/
def finishInsert (env : AddEnv) (s : Store) (tr : List Effect)
    (name address city stateV contact email : String)
    (image : Option String) : AddResponse × Store × List Effect :=
  if s.tableExists && env.insertOk then
    let row : SchoolRow :=
      ⟨s.nextId, name, address, city, stateV, contact, image, email, env.now⟩
    (⟨201, some s.nextId, "School added successfully"⟩,
     { s with rows := s.rows ++ [row], nextId := s.nextId + 1 },
     tr ++ [Effect.insertRow])
  else
    (⟨500, none, "Internal server error"⟩, s, tr ++ [Effect.insertRow])

/-- The creation handler of `src/pages/api/schools/add.js`, step for
step: reject non-POST with 405; run `createSchoolsTable()` (which never
throws); parse the form and bind each field's first value; answer 400
`All fields are required` unless all six are truthy; if a file was
uploaded under `image`, call Cloudinary — a rejection is caught by the
surrounding try/catch as a 500 with nothing inserted — otherwise keep
`imageUrl = null`; finally execute the single INSERT and answer 201
with the new id. Returns the response, the resulting store, and the
trace of upload/insert effects in the order they were performed. -/
def addHandler (env : AddEnv) (req : AddRequest) (s : Store) :
    AddResponse × Store × List Effect :=
  if req.method ≠ "POST" then
    (⟨405, none, "Method not allowed"⟩, s, [])
  else if !(allFieldsPresent req.fields) then
    (⟨400, none, "All fields are required"⟩,
     createSchoolsTable env.bootstrapOk s, [])
  else
    match req.files.image.head? with
    | none =>
        finishInsert env (createSchoolsTable env.bootstrapOk s) []
          (req.fields.name.head?.getD "") (req.fields.address.head?.getD "")
          (req.fields.city.head?.getD "") (req.fields.state.head?.getD "")
          (req.fields.contact.head?.getD "")
          (req.fields.email_id.head?.getD "") none
    | some file =>
        match env.uploadResult file.filepath with
        | none =>
            (⟨500, none, "Internal server error"⟩,
             createSchoolsTable env.bootstrapOk s,
             [Effect.uploadCall file.filepath])
        | some url =>
            finishInsert env (createSchoolsTable env.bootstrapOk s)
              [Effect.uploadCall file.filepath]
              (req.fields.name.head?.getD "")
              (req.fields.address.head?.getD "")
              (req.fields.city.head?.getD "")
              (req.fields.state.head?.getD "")
              (req.fields.contact.head?.getD "")
              (req.fields.email_id.head?.getD "") (some url)

/-- The reduced projection returned by the listing endpoint:
`SELECT id, name, address, city, image` — structurally without
`contact`, `email_id`, `state` or `created_at`. -/
structure SchoolListItem where
  id : Nat
  name : String
  address : String
  city : String
  image : Option String
deriving DecidableEq, Repr

/-- Projection of a stored row onto the listed columns. -/
def project (r : SchoolRow) : SchoolListItem :=
  ⟨r.id, r.name, r.address, r.city, r.image⟩

/-- One insertion step of the stable descending sort realising
`ORDER BY created_at DESC`: the row goes in front of the first row whose
`created_at` is not larger, so earlier rows stay first among equal
timestamps (MySQL returns a full scan of this table in primary-key, i.e.
insertion, order before sorting; the query names no secondary key). -/
def insertDesc (r : SchoolRow) : List SchoolRow → List SchoolRow
  | [] => [r]
  | x :: xs =>
      if x.created_at ≤ r.created_at then r :: x :: xs
      else x :: insertDesc r xs

/-- The `ORDER BY created_at DESC` of `list.js` as a stable insertion
sort of the rows (kept in insertion order in `Store.rows`). -/
def orderByCreatedAtDesc : List SchoolRow → List SchoolRow
  | [] => []
  | r :: rs => insertDesc r (orderByCreatedAtDesc rs)

/-- Environment of one listing request: outcome of the schema bootstrap's
internals and of the SELECT execution (given that the table exists). -/
structure ListEnv where
  bootstrapOk : Bool
  queryOk : Bool
deriving DecidableEq, Repr

/-- Body of a listing response: either the array of projected rows or a
JSON `message` object. -/
inductive ListBody where
  | rows (items : List SchoolListItem)
  | message (msg : String)
deriving DecidableEq, Repr

/-- Response of the listing endpoint: HTTP status and body. -/
structure ListResponse where
  status : Nat
  body : ListBody
deriving DecidableEq, Repr

/-- The listing handler of `src/pages/api/schools/list.js`, step for
step: reject non-GET with 405; run `createSchoolsTable()` (never
throws); execute `SELECT id, name, address, city, image FROM schools
ORDER BY created_at DESC` — it throws (caught as a 500) when the table
is missing or the database fails — and answer 200 with the projected
rows. Returns the response and the resulting store. -/
def listHandler (env : ListEnv) (method : String) (s : Store) :
    ListResponse × Store :=
  if method ≠ "GET" then
    (⟨405, ListBody.message "Method not allowed"⟩, s)
  else
    let s1 := createSchoolsTable env.bootstrapOk s
    if s1.tableExists && env.queryOk then
      (⟨200, ListBody.rows ((orderByCreatedAtDesc s1.rows).map project)⟩, s1)
    else
      (⟨500, ListBody.message "Internal server error"⟩, s1)

/-- A connection pool object as `mysql.createPool` builds it in
`src/lib/database.js`: the configuration it was created with. Two pools
are the same object in the model iff they carry the same configuration
(each process creates at most one, so this suffices to track identity). -/
structure Pool where
  host : Option String
  port : Nat
  user : Option String
  password : Option String
  database : Option String
  waitForConnections : Bool
  connectionLimit : Nat
  queueLimit : Nat
deriving DecidableEq, Repr

/-- The database-related process environment variables read by
`src/lib/database.js`. -/
structure DbEnv where
  DB_HOST : Option String
  DB_PORT : Option Nat
  DB_USER : Option String
  DB_PASSWORD : Option String
  DB_NAME : Option String

/-- `mysql.createPool({...})` as configured in `src/lib/database.js`:
`port: process.env.DB_PORT || 3306`, `waitForConnections: true`,
`connectionLimit: 10`, `queueLimit: 0`. -/
def createPool (env : DbEnv) : Pool :=
  ⟨env.DB_HOST, env.DB_PORT.getD 3306, env.DB_USER, env.DB_PASSWORD,
   env.DB_NAME, true, 10, 0⟩

/-- `getPool` from `src/lib/database.js`: the module-level `let pool`
variable is the `Option Pool` state (`none` = still `undefined`);
`if (!pool)` creates it, and the function returns the pool together
with the new state of the module variable. -/
def getPool (env : DbEnv) : Option Pool → Pool × Option Pool
  | none => (createPool env, some (createPool env))
  | some p => (p, some p)

/-- A sequence of `n` successive `getPool()` calls in one process,
threading the module variable: returns the pools handed out, in order,
and the final state of the variable. -/
def runGetPool (env : DbEnv) : Nat → Option Pool → List Pool × Option Pool
  | 0, st => ([], st)
  | n + 1, st =>
      let r := getPool env st
      let rest := runGetPool env n r.2
      (r.1 :: rest.1, rest.2)

/-- Whether an effect is a Cloudinary upload call. -/
def isUpload : Effect → Bool
  | Effect.uploadCall _ => true
  | Effect.insertRow => false

/-- Whether an effect is a database INSERT execution. -/
def isInsert : Effect → Bool
  | Effect.insertRow => true
  | Effect.uploadCall _ => false

/-- No upload call occurs after an insert in the trace (so whenever both
occur, the upload strictly precedes the insert). -/
def noUploadAfterInsert : List Effect → Bool
  | [] => true
  | Effect.uploadCall _ :: tr => noUploadAfterInsert tr
  | Effect.insertRow :: tr => tr.all fun e => !(isUpload e)

/-- Modelled from the spec: insertion step of the ordering the spec
claims for listing — `created_at` descending with ties broken by `id`
descending. This definition follows the spec's words, for comparison
with `orderByCreatedAtDesc`, which embeds the actual query (the query
names no secondary sort key). -/
def specTieInsert (r : SchoolRow) : List SchoolRow → List SchoolRow
  | [] => [r]
  | x :: xs =>
      if x.created_at < r.created_at ||
         (x.created_at == r.created_at && x.id < r.id) then
        r :: x :: xs
      else x :: specTieInsert r xs

/-- Modelled from the spec: the ordering the spec claims for listing,
`created_at` descending, ties broken by `id` descending. -/
def specOrderCreatedAtDescIdDesc : List SchoolRow → List SchoolRow
  | [] => []
  | r :: rs => specTieInsert r (specOrderCreatedAtDescIdDesc rs)

/-- Descending comparison on `created_at`, the sort key of the listing
query: `createdGe a b` says `a` may come before `b` in the output. -/
def createdGe (a b : SchoolRow) : Prop :=
  b.created_at ≤ a.created_at

/- Helper lemmas about the embedded operations. -/

theorem createSchoolsTable_rows (ok : Bool) (s : Store) :
    (createSchoolsTable ok s).rows = s.rows := by
  unfold createSchoolsTable; split <;> rfl

theorem createSchoolsTable_nextId (ok : Bool) (s : Store) :
    (createSchoolsTable ok s).nextId = s.nextId := by
  unfold createSchoolsTable; split <;> rfl

theorem createSchoolsTable_of_exists (ok : Bool) (s : Store)
    (h : s.tableExists = true) : createSchoolsTable ok s = s := by
  unfold createSchoolsTable
  split
  · cases s
    simp_all
  · rfl

theorem createSchoolsTable_exists_true (s : Store) :
    (createSchoolsTable true s).tableExists = true := by
  rfl

theorem insertDesc_perm (r : SchoolRow) (l : List SchoolRow) :
    (insertDesc r l).Perm (r :: l) := by
  induction l with
  | nil => exact List.Perm.refl _
  | cons x xs ih =>
      unfold insertDesc
      split
      · exact List.Perm.refl _
      · exact (ih.cons x).trans (List.Perm.swap r x xs)

theorem orderByCreatedAtDesc_perm (l : List SchoolRow) :
    (orderByCreatedAtDesc l).Perm l := by
  induction l with
  | nil => exact List.Perm.refl _
  | cons r rs ih =>
      exact (insertDesc_perm r (orderByCreatedAtDesc rs)).trans (ih.cons r)

theorem insertDesc_pairwise (r : SchoolRow) (l : List SchoolRow)
    (h : l.Pairwise createdGe) : (insertDesc r l).Pairwise createdGe := by
  induction l with
  | nil => simp [insertDesc, List.pairwise_singleton]
  | cons x xs ih =>
      rcases List.pairwise_cons.mp h with ⟨hx, hxs⟩
      unfold insertDesc
      split
      · rename_i hle
        refine List.pairwise_cons.mpr ⟨?_, h⟩
        intro y hy
        rcases List.mem_cons.mp hy with rfl | hy
        · exact hle
        · exact le_trans (hx y hy) hle
      · rename_i hgt
        refine List.pairwise_cons.mpr ⟨?_, ih hxs⟩
        intro y hy
        rcases List.mem_cons.mp ((insertDesc_perm r xs).mem_iff.mp hy) with
          rfl | h1
        · exact le_of_not_le hgt
        · exact hx y h1

theorem orderByCreatedAtDesc_pairwise (l : List SchoolRow) :
    (orderByCreatedAtDesc l).Pairwise createdGe := by
  induction l with
  | nil => exact List.Pairwise.nil
  | cons r rs ih => exact insertDesc_pairwise r _ ih

theorem runGetPool_some (env : DbEnv) (n : Nat) (p : Pool) :
    runGetPool env n (some p) = (List.replicate n p, some p) := by
  induction n with
  | zero => rfl
  | succ m ih => simp [runGetPool, getPool, ih, List.replicate]

/- Concrete inputs used by counterexamples and witnesses. -/

/-- A fresh process state: no table yet, no rows, AUTO_INCREMENT at 1. -/
def emptyStore : Store := ⟨false, [], 1⟩

/-- A store whose two rows share one `created_at` value (timestamp
granularity collision), inserted as id 1 then id 2. -/
def storeTie : Store :=
  ⟨true,
   [⟨1, "A", "adA", "cA", "sA", "1111111111", none, "a@b.com", 5⟩,
    ⟨2, "B", "adB", "cB", "sB", "2222222222", none, "b@b.com", 5⟩],
   3⟩

/-- A creation environment where bootstrap and INSERT succeed and every
upload call fails. -/
def envUploadFail : AddEnv := ⟨true, fun _ => none, true, 3⟩

/-- A creation environment where bootstrap, upload and INSERT all
succeed. -/
def envAddOk : AddEnv := ⟨true, fun _ => some "https://res.example/img.png", true, 42⟩

/-- A POST whose contact ("12345") and email ("not-an-email") violate
the client-side format rules while all six fields are non-empty. -/
def malformedContactReq : AddRequest :=
  ⟨"POST",
   ⟨["Oak Elementary"], ["1 Oak Rd"], ["Springfield"], ["IL"], ["12345"],
    ["not-an-email"]⟩,
   ⟨[]⟩⟩

/-- A POST with an empty `contact` field (and no image). -/
def missingContactReq : AddRequest :=
  ⟨"POST",
   ⟨["Oak Elementary"], ["1 Oak Rd"], ["Springfield"], ["IL"], [""],
    ["a@b.com"]⟩,
   ⟨[]⟩⟩

/-- A valid POST carrying an image file. -/
def fileReq : AddRequest :=
  ⟨"POST",
   ⟨["N"], ["A"], ["C"], ["S"], ["1234567890"], ["e@f.com"]⟩,
   ⟨[⟨"/tmp/upload1"⟩]⟩⟩

/-- The spec's concrete scenario: Oak Elementary, no image. -/
def oakReq : AddRequest :=
  ⟨"POST",
   ⟨["Oak Elementary"], ["1 Oak Rd"], ["Springfield"], ["IL"],
    ["5551234567"], ["a@b.com"]⟩,
   ⟨[]⟩⟩

/-- A POST whose name is whitespace-only and whose city field occurs
twice (formidable collects both; the handler uses the first). -/
def whitespaceReq : AddRequest :=
  ⟨"POST",
   ⟨[" "], ["1 Oak Rd"], ["first city", "second city"], ["IL"],
    ["5551234567"], ["a@b.com"]⟩,
   ⟨[]⟩⟩

/-- An empty database environment (every variable unset, defaults
apply). -/
def dbEnvLocal : DbEnv := ⟨none, none, none, none, none⟩

/- Claim C1. -/

/-- C1, counterexample: the claim says any POST whose contact does not
match the 10-digit pattern (or whose email is malformed) is rejected
server-side with HTTP 400 before any side effect. On the concrete
submission with contact "12345" and email "not-an-email" the creation
handler instead answers 201 and executes the INSERT: the server never
checks the formats (only the client-side yup schema does). -/
theorem C1_cex_malformed_contact_accepted :
    contactMatchesTenDigits "12345" = false ∧
    (addHandler envUploadFail malformedContactReq emptyStore).1.status = 201 ∧
    ¬((addHandler envUploadFail malformedContactReq emptyStore).1.status = 400) ∧
    (addHandler envUploadFail malformedContactReq emptyStore).2.2 =
      [Effect.insertRow] := by
  decide

/-- C1, amended: the creation handler's authoritative server-side
validation checks only presence (truthiness of each field's first
value); it answers 400 exactly when some required field is missing or
empty, and never because of the contact or email format — those rules
live only in the client-side schema. -/
theorem C1_server_validates_presence_only (env : AddEnv) (req : AddRequest)
    (s : Store) (hm : req.method = "POST") :
    ((addHandler env req s).1.status = 400 ↔
      allFieldsPresent req.fields = false) := by
  unfold addHandler
  rw [if_neg (by simp [hm])]
  by_cases hp : allFieldsPresent req.fields
  · rw [if_neg (by simp [hp])]
    constructor
    · intro h
      exfalso
      cases himg : req.files.image.head? with
      | none =>
          simp only [himg] at h
          unfold finishInsert at h
          revert h
          split <;> simp
      | some file =>
          cases hup : env.uploadResult file.filepath with
          | none =>
              simp only [himg, hup] at h
              exact absurd h (by decide)
          | some url =>
              simp only [himg, hup] at h
              unfold finishInsert at h
              revert h
              split <;> simp
    · intro h
      rw [hp] at h
      exact absurd h (by decide)
  · rw [if_pos (by simp [hp])]
    simp [Bool.eq_false_iff, hp]

/-- C1, witness for the amended theorem: a POST with an empty contact
field is answered 400, and one with all six fields non-empty is not. -/
theorem C1_amended_witness :
    missingContactReq.method = "POST" ∧
    allFieldsPresent missingContactReq.fields = false ∧
    (addHandler envAddOk missingContactReq emptyStore).1.status = 400 :=
  ⟨rfl, by decide,
   (C1_server_validates_presence_only envAddOk missingContactReq emptyStore
     rfl).mpr (by decide)⟩

/- Claim C2. -/

/-- C2: when the method is POST and some required text field is missing
or empty, the creation handler answers 400, performs no upload call and
no INSERT (empty effect trace), and leaves the stored rows — hence the
row count — unchanged: validation precedes all side effects. -/
theorem C2_missing_field_rejected_without_side_effects (env : AddEnv)
    (req : AddRequest) (s : Store) (hm : req.method = "POST")
    (hp : allFieldsPresent req.fields = false) :
    (addHandler env req s).1.status = 400 ∧
    (addHandler env req s).2.2 = [] ∧
    (addHandler env req s).2.1.rows = s.rows := by
  unfold addHandler
  rw [if_neg (by simp [hm]), if_pos (by simp [hp])]
  exact ⟨rfl, rfl, createSchoolsTable_rows _ _⟩

/-- C2, witness: the concrete POST with an empty contact field gets 400,
an empty effect trace, and the rows of the fresh store stay `[]`. -/
theorem C2_witness :
    missingContactReq.method = "POST" ∧
    allFieldsPresent missingContactReq.fields = false ∧
    (addHandler envAddOk missingContactReq emptyStore).1.status = 400 ∧
    (addHandler envAddOk missingContactReq emptyStore).2.2 = [] ∧
    (addHandler envAddOk missingContactReq emptyStore).2.1.rows =
      emptyStore.rows :=
  ⟨rfl, by decide,
   (C2_missing_field_rejected_without_side_effects envAddOk
     missingContactReq emptyStore rfl (by decide)).1,
   (C2_missing_field_rejected_without_side_effects envAddOk
     missingContactReq emptyStore rfl (by decide)).2.1,
   (C2_missing_field_rejected_without_side_effects envAddOk
     missingContactReq emptyStore rfl (by decide)).2.2⟩

/- Claim C3. -/

/-- C3: every execution of the creation handler performs at most one
upload call and at most one INSERT, with no upload occurring after an
insert (so when both occur the upload strictly precedes the insert);
and whenever an upload is attempted and fails — method POST, all fields
present, a file under `image`, Cloudinary rejecting — the handler
answers 500 and the stored rows are unchanged (no row persisted). -/
theorem C3_upload_insert_discipline (env : AddEnv) (req : AddRequest)
    (s : Store) :
    (addHandler env req s).2.2.countP isUpload ≤ 1 ∧
    (addHandler env req s).2.2.countP isInsert ≤ 1 ∧
    noUploadAfterInsert (addHandler env req s).2.2 = true ∧
    (∀ file, req.method = "POST" → allFieldsPresent req.fields = true →
      req.files.image.head? = some file →
      env.uploadResult file.filepath = none →
      (addHandler env req s).1.status = 500 ∧
      (addHandler env req s).2.1.rows = s.rows) := by
  by_cases hm : req.method = "POST"
  · unfold addHandler
    rw [if_neg (by simp [hm])]
    by_cases hp : allFieldsPresent req.fields
    · rw [if_neg (by simp [hp])]
      cases himg : req.files.image.head? with
      | none =>
          simp only [himg]
          unfold finishInsert
          refine ⟨?_, ?_, ?_, ?_⟩
          · split <;> simp [isUpload, List.countP, List.countP.go]
          · split <;> simp [isInsert, List.countP, List.countP.go]
          · split <;> simp [noUploadAfterInsert, isUpload]
          · intro file _ _ hfile _
            exact absurd hfile (by simp)
      | some f =>
          cases hup : env.uploadResult f.filepath with
          | none =>
              simp only [himg, hup]
              refine ⟨by simp [isUpload, List.countP, List.countP.go],
                      by simp [isInsert, List.countP, List.countP.go],
                      by simp [noUploadAfterInsert],
                      ?_⟩
              intro file _ _ hfile hu
              exact ⟨by trivial, createSchoolsTable_rows _ _⟩
          | some url =>
              simp only [himg, hup]
              unfold finishInsert
              refine ⟨?_, ?_, ?_, ?_⟩
              · split <;> simp [isUpload, List.countP, List.countP.go]
              · split <;> simp [isInsert, List.countP, List.countP.go]
              · split <;> simp [noUploadAfterInsert, isUpload, List.all]
              · intro file _ _ hfile hu
                injection hfile with hfe
                rw [← hfe, hup] at hu
                exact absurd hu (by simp)
    · rw [if_pos (by simp [hp])]
      refine ⟨by simp, by simp, by simp [noUploadAfterInsert], ?_⟩
      intro file _ hp' _ _
      rw [hp'] at hp
      exact absurd rfl hp
  · unfold addHandler
    rw [if_pos (by simp [hm])]
    refine ⟨by simp, by simp, by simp [noUploadAfterInsert], ?_⟩
    intro file hm' _ _ _
    exact absurd hm' hm

/-- C3, witness: on the concrete valid POST with a file whose upload
fails, the handler answers 500 and persists nothing. -/
theorem C3_witness :
    fileReq.method = "POST" ∧
    allFieldsPresent fileReq.fields = true ∧
    fileReq.files.image.head? = some ⟨"/tmp/upload1"⟩ ∧
    envUploadFail.uploadResult "/tmp/upload1" = none ∧
    (addHandler envUploadFail fileReq emptyStore).1.status = 500 ∧
    (addHandler envUploadFail fileReq emptyStore).2.1.rows =
      emptyStore.rows :=
  ⟨rfl, by decide, rfl, rfl,
   ((C3_upload_insert_discipline envUploadFail fileReq emptyStore).2.2.2
     ⟨"/tmp/upload1"⟩ rfl (by decide) rfl rfl).1,
   ((C3_upload_insert_discipline envUploadFail fileReq emptyStore).2.2.2
     ⟨"/tmp/upload1"⟩ rfl (by decide) rfl rfl).2⟩

/- Claim C4. -/

/-- C4, counterexample: on the concrete store with two rows sharing one
`created_at` (inserted as id 1 then id 2), the listing handler returns
the ids in the order [1, 2], while the claimed ordering — `created_at`
descending with ties broken by `id` descending — would return [2, 1]:
the query `ORDER BY created_at DESC` has no secondary sort key, so ties
are NOT broken by id descending. -/
theorem C4_cex_tie_not_broken_by_id_desc :
    (listHandler ⟨true, true⟩ "GET" storeTie).1.body =
      ListBody.rows ((orderByCreatedAtDesc storeTie.rows).map project) ∧
    ((orderByCreatedAtDesc storeTie.rows).map project).map
      SchoolListItem.id = [1, 2] ∧
    ((specOrderCreatedAtDescIdDesc storeTie.rows).map project).map
      SchoolListItem.id = [2, 1] ∧
    (listHandler ⟨true, true⟩ "GET" storeTie).1.body ≠
      ListBody.rows ((specOrderCreatedAtDescIdDesc storeTie.rows).map
        project) := by
  decide

/-- C4, amended: the listing handler returns the records ordered by
`created_at` descending (most recently created first); the relative
order of records with equal `created_at` is not constrained by the
query (it names no secondary sort key), and in this embedding ties keep
their insertion order. The output is a permutation of the store's
rows. -/
theorem C4_listing_sorted_by_created_at_desc (env : ListEnv) (s : Store)
    (hb : env.bootstrapOk = true) (hq : env.queryOk = true) :
    (listHandler env "GET" s).1.body =
      ListBody.rows ((orderByCreatedAtDesc s.rows).map project) ∧
    (orderByCreatedAtDesc s.rows).Pairwise createdGe ∧
    (orderByCreatedAtDesc s.rows).Perm s.rows := by
  refine ⟨?_, orderByCreatedAtDesc_pairwise s.rows,
    orderByCreatedAtDesc_perm s.rows⟩
  unfold listHandler
  rw [if_neg (by simp), hb]
  rw [if_pos (by simp [createSchoolsTable_exists_true, hq])]
  rw [createSchoolsTable_rows]

/-- C4, witness for the amended theorem: on the concrete tied store the
body is the projection of the `created_at`-descending arrangement, which
is sorted and a permutation of the rows. -/
theorem C4_amended_witness :
    (listHandler ⟨true, true⟩ "GET" storeTie).1.body =
      ListBody.rows ((orderByCreatedAtDesc storeTie.rows).map project) ∧
    (orderByCreatedAtDesc storeTie.rows).Pairwise createdGe ∧
    (orderByCreatedAtDesc storeTie.rows).Perm storeTie.rows :=
  C4_listing_sorted_by_created_at_desc ⟨true, true⟩ storeTie rfl rfl

/- Claim C5. -/

/-- C5: a successful listing answers 200 with exactly the reduced
projection {id, name, address, city, image} of every stored record
(`SchoolListItem` structurally omits `contact`, `email_id` and
`state`): the returned items are a permutation of the projection of all
rows, and an empty store yields the empty sequence, not an error. -/
theorem C5_reduced_projection_of_every_record (env : ListEnv) (s : Store)
    (hb : env.bootstrapOk = true) (hq : env.queryOk = true) :
    (listHandler env "GET" s).1.status = 200 ∧
    (listHandler env "GET" s).1.body =
      ListBody.rows ((orderByCreatedAtDesc s.rows).map project) ∧
    ((orderByCreatedAtDesc s.rows).map project).Perm
      (s.rows.map project) ∧
    (s.rows = [] → (listHandler env "GET" s).1.body = ListBody.rows []) := by
  have hbody : (listHandler env "GET" s).1.body =
      ListBody.rows ((orderByCreatedAtDesc s.rows).map project) := by
    unfold listHandler
    rw [if_neg (by simp), hb]
    rw [if_pos (by simp [createSchoolsTable_exists_true, hq])]
    rw [createSchoolsTable_rows]
  refine ⟨?_, hbody, (orderByCreatedAtDesc_perm s.rows).map project, ?_⟩
  · unfold listHandler
    rw [if_neg (by simp), hb]
    rw [if_pos (by simp [createSchoolsTable_exists_true, hq])]
  · intro hrows
    rw [hbody, hrows]
    rfl

/-- C5, witness: on the fresh (empty) store the listing answers 200 with
the empty sequence, the projection of no records. -/
theorem C5_witness :
    (listHandler ⟨true, true⟩ "GET" emptyStore).1.status = 200 ∧
    (listHandler ⟨true, true⟩ "GET" emptyStore).1.body =
      ListBody.rows ((orderByCreatedAtDesc emptyStore.rows).map project) ∧
    (listHandler ⟨true, true⟩ "GET" emptyStore).1.body = ListBody.rows [] :=
  ⟨(C5_reduced_projection_of_every_record ⟨true, true⟩ emptyStore rfl
     rfl).1,
   (C5_reduced_projection_of_every_record ⟨true, true⟩ emptyStore rfl
     rfl).2.1,
   (C5_reduced_projection_of_every_record ⟨true, true⟩ emptyStore rfl
     rfl).2.2.2 rfl⟩

/- Claim C6. -/

/-- C6, counterexample: the claim says every store-access failure,
including a failure of the table bootstrap, surfaces as HTTP 500. On
the concrete state where the table already exists, the bootstrap's
internal operations fail but the subsequent query succeeds: the handler
answers 200 — `createSchoolsTable` catches its own errors and only logs
them, so a bootstrap failure never surfaces by itself. -/
theorem C6_cex_bootstrap_failure_not_surfaced :
    (⟨false, true⟩ : ListEnv).bootstrapOk = false ∧
    (listHandler ⟨false, true⟩ "GET" storeTie).1.status = 200 ∧
    ¬((listHandler ⟨false, true⟩ "GET" storeTie).1.status = 500) := by
  decide

/-- C6, amended: the listing handler answers 500 exactly when the SELECT
fails (table still absent after the bootstrap attempt, or query error);
a bootstrap failure alone is swallowed inside `createSchoolsTable` and
does not surface. The handler never returns partial results: a 500
carries only the error message, and a 200 carries the projection of all
rows. -/
theorem C6_storage_failure_surfaces_only_from_query (env : ListEnv)
    (s : Store) :
    ((listHandler env "GET" s).1.status = 500 ↔
      ¬((createSchoolsTable env.bootstrapOk s).tableExists = true ∧
        env.queryOk = true)) ∧
    ((listHandler env "GET" s).1.status = 500 →
      (listHandler env "GET" s).1.body =
        ListBody.message "Internal server error") ∧
    ((listHandler env "GET" s).1.status = 200 →
      (listHandler env "GET" s).1.body =
        ListBody.rows ((orderByCreatedAtDesc s.rows).map project)) := by
  unfold listHandler
  rw [if_neg (by simp)]
  by_cases hc : ((createSchoolsTable env.bootstrapOk s).tableExists &&
      env.queryOk) = true
  · rw [if_pos hc]
    refine ⟨?_, ?_, ?_⟩
    · simp only [Bool.and_eq_true] at hc
      simp [hc]
    · intro h
      simp at h
    · intro _
      rw [createSchoolsTable_rows]
  · rw [if_neg hc]
    refine ⟨?_, fun _ => rfl, ?_⟩
    · simp only [Bool.and_eq_true] at hc
      simp [hc]
    · intro h
      simp at h

/-- C6, witness for the amended theorem: with the table present but the
query failing, the concrete listing answers 500 with only the error
message; with everything healthy it answers 200. -/
theorem C6_amended_witness :
    (listHandler ⟨true, false⟩ "GET" storeTie).1.status = 500 ∧
    (listHandler ⟨true, false⟩ "GET" storeTie).1.body =
      ListBody.message "Internal server error" :=
  ⟨(C6_storage_failure_surfaces_only_from_query ⟨true, false⟩
     storeTie).1.mpr (by decide),
   (C6_storage_failure_surfaces_only_from_query ⟨true, false⟩
     storeTie).2.1
    ((C6_storage_failure_surfaces_only_from_query ⟨true, false⟩
       storeTie).1.mpr (by decide))⟩

/- Claim C7. -/

/-- C7, counterexample: the claim says the store state (schema and rows)
after a listing request equals the state before it. On the fresh store
without a table, a GET runs the schema bootstrap and leaves the table
created: the schema part of the state changed. -/
theorem C7_cex_listing_bootstraps_schema :
    (listHandler ⟨true, true⟩ "GET" emptyStore).2 ≠ emptyStore ∧
    (listHandler ⟨true, true⟩ "GET" emptyStore).2.tableExists = true ∧
    emptyStore.tableExists = false := by
  decide

/-- C7, amended: the listing handler never mutates the data — rows and
the id counter are unchanged by every request — and its only possible
state change is the idempotent schema bootstrap (creating the `schools`
table when absent); when the table already exists, the store is left
completely unchanged. -/
theorem C7_listing_readonly_up_to_bootstrap (env : ListEnv) (m : String)
    (s : Store) :
    (listHandler env m s).2.rows = s.rows ∧
    (listHandler env m s).2.nextId = s.nextId ∧
    (s.tableExists = true → (listHandler env m s).2 = s) := by
  unfold listHandler
  by_cases hm : m = "GET"
  · rw [if_neg (by simp [hm])]
    by_cases hc : ((createSchoolsTable env.bootstrapOk s).tableExists &&
        env.queryOk) = true
    · rw [if_pos hc]
      exact ⟨createSchoolsTable_rows _ _, createSchoolsTable_nextId _ _,
        fun h => createSchoolsTable_of_exists _ _ h⟩
    · rw [if_neg hc]
      exact ⟨createSchoolsTable_rows _ _, createSchoolsTable_nextId _ _,
        fun h => createSchoolsTable_of_exists _ _ h⟩
  · rw [if_pos (by simp [hm])]
    exact ⟨rfl, rfl, fun _ => rfl⟩

/-- C7, witness for the amended theorem: on the concrete store whose
table exists, a GET leaves the whole store unchanged. -/
theorem C7_amended_witness :
    (listHandler ⟨true, true⟩ "GET" storeTie).2.rows = storeTie.rows ∧
    (listHandler ⟨true, true⟩ "GET" storeTie).2.nextId = storeTie.nextId ∧
    (listHandler ⟨true, true⟩ "GET" storeTie).2 = storeTie :=
  ⟨(C7_listing_readonly_up_to_bootstrap ⟨true, true⟩ "GET" storeTie).1,
   (C7_listing_readonly_up_to_bootstrap ⟨true, true⟩ "GET" storeTie).2.1,
   (C7_listing_readonly_up_to_bootstrap ⟨true, true⟩ "GET" storeTie).2.2
     rfl⟩

/- Claim C8. -/

/-- The row the creation handler hands to the INSERT: next id, the six
first field values as bound in `add.js`, the image outcome, and the
store-assigned timestamp. -/
def submittedRow (env : AddEnv) (req : AddRequest) (s : Store)
    (img : Option String) : SchoolRow :=
  ⟨s.nextId, req.fields.name.head?.getD "", req.fields.address.head?.getD "",
   req.fields.city.head?.getD "", req.fields.state.head?.getD "",
   req.fields.contact.head?.getD "", img,
   req.fields.email_id.head?.getD "", env.now⟩

/-- The `imageUrl` variable of `add.js` at INSERT time: `null` when no
file arrived under `image`, otherwise the `secure_url` Cloudinary
returned for the file's path (the handler only reaches the INSERT when
that upload succeeded). -/
def imageOutcome (env : AddEnv) (files : Files) : Option String :=
  match files.image.head? with
  | none => none
  | some f => env.uploadResult f.filepath

/-- `finishInsert` when the table exists and the database accepts the
INSERT: 201, the new id, the appended row, the insert effect. -/
theorem finishInsert_success (env : AddEnv) (s : Store) (tr : List Effect)
    (a b c d e f : String) (img : Option String)
    (h : (s.tableExists && env.insertOk) = true) :
    finishInsert env s tr a b c d e f img =
      (⟨201, some s.nextId, "School added successfully"⟩,
       { s with
         rows := s.rows ++ [⟨s.nextId, a, b, c, d, e, img, f, env.now⟩]
         nextId := s.nextId + 1 },
       tr ++ [Effect.insertRow]) := by
  unfold finishInsert
  rw [if_pos h]

/-- C8: a POST with all six fields present and no image file, in a
healthy environment, succeeds with 201 and the numeric `schoolId`
`s.nextId`; the row is persisted with the image column `null`; and a
subsequent GET answers 200 with a listing that contains the projection
of that record, whose `image` is `null` — absence of an image is valid,
not an error. -/
theorem C8_no_image_valid_submission_persisted (env : AddEnv)
    (lenv : ListEnv) (req : AddRequest) (s : Store)
    (hm : req.method = "POST") (hp : allFieldsPresent req.fields = true)
    (himg : req.files.image = []) (hb : env.bootstrapOk = true)
    (hi : env.insertOk = true) (hlb : lenv.bootstrapOk = true)
    (hlq : lenv.queryOk = true) :
    (addHandler env req s).1.status = 201 ∧
    (addHandler env req s).1.schoolId = some s.nextId ∧
    (addHandler env req s).2.1.rows =
      s.rows ++ [submittedRow env req s none] ∧
    (submittedRow env req s none).image = none ∧
    (listHandler lenv "GET" (addHandler env req s).2.1).1.status = 200 ∧
    (listHandler lenv "GET" (addHandler env req s).2.1).1.body =
      ListBody.rows
        ((orderByCreatedAtDesc (addHandler env req s).2.1.rows).map
          project) ∧
    project (submittedRow env req s none) ∈
      (orderByCreatedAtDesc (addHandler env req s).2.1.rows).map project := by
  have himg' : req.files.image.head? = none := by
    rw [himg]; rfl
  have hred : addHandler env req s =
      (⟨201, some s.nextId, "School added successfully"⟩,
       ⟨true, s.rows ++ [submittedRow env req s none], s.nextId + 1⟩,
       [Effect.insertRow]) := by
    unfold addHandler
    rw [if_neg (by simp [hm]), if_neg (by simp [hp])]
    simp only [himg']
    rw [hb]
    have : createSchoolsTable true s = ⟨true, s.rows, s.nextId⟩ := by
      simp [createSchoolsTable]
    rw [this,
      finishInsert_success env ⟨true, s.rows, s.nextId⟩ [] _ _ _ _ _ _ none
        (by simp [hi])]
    rfl
  have hmem : submittedRow env req s none ∈
      orderByCreatedAtDesc (addHandler env req s).2.1.rows := by
    rw [hred]
    exact (orderByCreatedAtDesc_perm _).mem_iff.mpr
      (List.mem_append_right _ (List.mem_singleton_self _))
  refine ⟨by rw [hred], by rw [hred], by rw [hred], rfl, ?_, ?_,
    List.mem_map_of_mem project hmem⟩
  · rw [hred]
    unfold listHandler
    rw [if_neg (by simp), hlb]
    rw [if_pos (by simp [createSchoolsTable, hlq])]
  · rw [hred]
    unfold listHandler
    rw [if_neg (by simp), hlb]
    rw [if_pos (by simp [createSchoolsTable, hlq])]
    simp [createSchoolsTable]

/-- C8, witness: the spec's Oak Elementary scenario on a fresh store —
201, schoolId 1, the row stored with image `null`, and the subsequent
listing containing `{id := 1, name := Oak Elementary, address := 1 Oak
Rd, city := Springfield, image := null}`. -/
theorem C8_witness :
    (addHandler envAddOk oakReq emptyStore).1.status = 201 ∧
    (addHandler envAddOk oakReq emptyStore).1.schoolId = some 1 ∧
    (addHandler envAddOk oakReq emptyStore).2.1.rows =
      emptyStore.rows ++ [submittedRow envAddOk oakReq emptyStore none] ∧
    project (submittedRow envAddOk oakReq emptyStore none) =
      ⟨1, "Oak Elementary", "1 Oak Rd", "Springfield", none⟩ ∧
    (listHandler ⟨true, true⟩ "GET"
      (addHandler envAddOk oakReq emptyStore).2.1).1.status = 200 ∧
    project (submittedRow envAddOk oakReq emptyStore none) ∈
      (orderByCreatedAtDesc
        (addHandler envAddOk oakReq emptyStore).2.1.rows).map project :=
  ⟨(C8_no_image_valid_submission_persisted envAddOk ⟨true, true⟩ oakReq
     emptyStore rfl (by decide) rfl rfl rfl rfl rfl).1,
   (C8_no_image_valid_submission_persisted envAddOk ⟨true, true⟩ oakReq
     emptyStore rfl (by decide) rfl rfl rfl rfl rfl).2.1,
   (C8_no_image_valid_submission_persisted envAddOk ⟨true, true⟩ oakReq
     emptyStore rfl (by decide) rfl rfl rfl rfl rfl).2.2.1,
   by decide,
   (C8_no_image_valid_submission_persisted envAddOk ⟨true, true⟩ oakReq
     emptyStore rfl (by decide) rfl rfl rfl rfl rfl).2.2.2.2.1,
   (C8_no_image_valid_submission_persisted envAddOk ⟨true, true⟩ oakReq
     emptyStore rfl (by decide) rfl rfl rfl rfl rfl).2.2.2.2.2.2⟩

/- Claim C9. -/

/-- C9: `getPool` is a lazy process-wide singleton. A call on an already
created pool returns that very pool and leaves the module variable
unchanged; and any sequence of `n ≥ 1` calls starting from the fresh
process state creates the pool exactly on the first call and hands the
same pool object to every caller, leaving the variable holding it. -/
theorem C9_getPool_lazy_singleton (env : DbEnv) (n : Nat) (hn : 1 ≤ n) :
    (∀ p, getPool env (some p) = (p, some p)) ∧
    (runGetPool env n none).1 = List.replicate n (createPool env) ∧
    (runGetPool env n none).2 = some (createPool env) := by
  refine ⟨fun p => rfl, ?_, ?_⟩
  · cases n with
    | zero => exact absurd hn (by decide)
    | succ m =>
        simp [runGetPool, getPool, runGetPool_some, List.replicate]
  · cases n with
    | zero => exact absurd hn (by decide)
    | succ m =>
        simp [runGetPool, getPool, runGetPool_some]

/-- C9, witness: three `getPool()` calls in a fresh process with an
empty environment all return the one pool created on the first call. -/
theorem C9_witness :
    1 ≤ 3 ∧
    (runGetPool dbEnvLocal 3 none).1 =
      List.replicate 3 (createPool dbEnvLocal) ∧
    (runGetPool dbEnvLocal 3 none).2 = some (createPool dbEnvLocal) :=
  ⟨by decide,
   (C9_getPool_lazy_singleton dbEnvLocal 3 (by decide)).2.1,
   (C9_getPool_lazy_singleton dbEnvLocal 3 (by decide)).2.2⟩

/- Claim C10. -/

/-- C10: for every POST whose six required fields each have a truthy
(non-empty) first value, in an environment where bootstrap, INSERT and
any attempted upload succeed, the handler answers 201 and appends
exactly one row whose name, address, city, state, contact and email_id
columns are the submitted first values, verbatim — no trimming or
normalization (so whitespace-only values pass validation and are stored
as-is), and later occurrences of a repeated field are ignored. -/
theorem C10_first_values_persisted_verbatim (env : AddEnv)
    (req : AddRequest) (s : Store) (nm ad ci stv co em : String)
    (hm : req.method = "POST")
    (h1 : req.fields.name.head? = some nm)
    (h2 : req.fields.address.head? = some ad)
    (h3 : req.fields.city.head? = some ci)
    (h4 : req.fields.state.head? = some stv)
    (h5 : req.fields.contact.head? = some co)
    (h6 : req.fields.email_id.head? = some em)
    (hp : allFieldsPresent req.fields = true)
    (hb : env.bootstrapOk = true) (hi : env.insertOk = true)
    (hup : ∀ f, req.files.image.head? = some f →
      env.uploadResult f.filepath ≠ none) :
    (addHandler env req s).1.status = 201 ∧
    (addHandler env req s).2.1.rows = s.rows ++
      [⟨s.nextId, nm, ad, ci, stv, co, imageOutcome env req.files, em,
        env.now⟩] := by
  have hct : createSchoolsTable env.bootstrapOk s =
      ⟨true, s.rows, s.nextId⟩ := by
    rw [hb]
    simp [createSchoolsTable]
  unfold addHandler
  rw [if_neg (by simp [hm]), if_neg (by simp [hp])]
  cases hf : req.files.image.head? with
  | none =>
      rw [hct, finishInsert_success env ⟨true, s.rows, s.nextId⟩ []
        _ _ _ _ _ _ none (by simp [hi])]
      refine ⟨rfl, ?_⟩
      simp only [h1, h2, h3, h4, h5, h6, Option.getD_some]
      unfold imageOutcome
      simp only [hf]
  | some f =>
      cases hu : env.uploadResult f.filepath with
      | none => exact absurd hu (hup f hf)
      | some url =>
          rw [hct]
          simp only [hu]
          rw [finishInsert_success env ⟨true, s.rows, s.nextId⟩
            [Effect.uploadCall f.filepath] _ _ _ _ _ _ (some url)
            (by simp [hi])]
          refine ⟨rfl, ?_⟩
          simp only [h1, h2, h3, h4, h5, h6, Option.getD_some]
          unfold imageOutcome
          simp only [hf, hu]

/-- C10, witness: a POST whose name is the whitespace-only string " "
and whose city field occurs twice passes validation and is stored
verbatim — the row holds " " untrimmed and the first city value only,
with the image column null. -/
theorem C10_witness :
    allFieldsPresent whitespaceReq.fields = true ∧
    (addHandler envAddOk whitespaceReq emptyStore).1.status = 201 ∧
    (addHandler envAddOk whitespaceReq emptyStore).2.1.rows =
      emptyStore.rows ++
      [⟨emptyStore.nextId, " ", "1 Oak Rd", "first city", "IL",
        "5551234567", imageOutcome envAddOk whitespaceReq.files, "a@b.com",
        envAddOk.now⟩] ∧
    imageOutcome envAddOk whitespaceReq.files = none :=
  ⟨by decide,
   (C10_first_values_persisted_verbatim envAddOk whitespaceReq emptyStore
     " " "1 Oak Rd" "first city" "IL" "5551234567" "a@b.com" rfl rfl rfl
     rfl rfl rfl rfl (by decide) rfl rfl
     (fun f h => Option.noConfusion h)).1,
   (C10_first_values_persisted_verbatim envAddOk whitespaceReq emptyStore
     " " "1 Oak Rd" "first city" "IL" "5551234567" "a@b.com" rfl rfl rfl
     rfl rfl rfl rfl (by decide) rfl rfl
     (fun f h => Option.noConfusion h)).2,
   rfl⟩
